import Mathlib

/-!
Verification of the Lor service (FastAPI + SQLModel + Redis) against its
natural-language specification.

The development shallowly embeds the parts of the source that the claims
touch:

* `src/src/auth/dependencies.py` — JWT issue/decode, blacklist (revocation)
  checks, `get_current_user`, `authenticate_user`;
* `src/src/auth/router.py` — the `/auth/login`, `/auth/refresh`,
  `/auth/signout` endpoints;
* `src/src/auth/models.py` — the `blacklisted_tokens` table (unique `token`
  column);
* `src/src/helpers/redis.py` — the keyed fast cache with TTLs, the favorites
  cache-aside helpers and the serialize/deserialize pair;
* `src/src/characters/service.py` — the bulk upsert
  (`bulk_create_or_update_characters`) and `add_character_to_favorites`;
* `src/src/characters/tasks.py` — the reconciliation task `fetch_and_update`;
* `src/src/characters/router.py` — the favorites endpoints.

Machine integers do not occur; times are seconds modelled as `Nat`.
I/O outcomes (cache reachable or not, external fetch result) are passed as
explicit parameters.  Fallible operations return `Except`.

One load-bearing detail of the source is modelled explicitly: the
`/auth/refresh` and `/auth/signout` routes pass the parsed `RefreshToken`
pydantic request model itself — not the token string it wraps — into
`verify_refresh_token` and `blacklist_token` (src/src/auth/router.py lines
148 and 217).  The value flowing into those `token: str` parameters is
therefore a sum (`SqlParam`), and binding the non-string object as a SQL
parameter raises an uncaught error before the statement runs.
-/

namespace Lor

/-! ## Tokens (src/src/auth/dependencies.py)

A JWT is opaque to callers; what matters is whether it verifies under the
process secret and, if so, which claims it carries.  `Token.signed p` is a
token correctly signed with `settings.secret_key` carrying payload `p`;
`Token.malformed s` is any other string (bad signature or not a JWT at
all). -/

structure Payload where
  sub : Option String
  exp : Nat
  type : Option String
deriving DecidableEq, Repr

inductive Token where
  | signed (p : Payload)
  | malformed (raw : String)
deriving DecidableEq, Repr

/-- `settings.access_token_expire_minutes` (src/src/settings.py). -/
def accessTokenExpireMinutes : Nat := 30

/-- `settings.refresh_token_expire_minutes` (src/src/settings.py). -/
def refreshTokenExpireMinutes : Nat := 1

/-- `create_access_token` (src/src/auth/dependencies.py): payload carries
the user id in `sub`, expiry `now + access TTL`, and `type = "access"`. -/
def createAccessToken (userId : String) (now : Nat) : Token :=
  .signed ⟨some userId, now + accessTokenExpireMinutes * 60, some "access"⟩

/-- `create_refresh_token` (src/src/auth/dependencies.py). -/
def createRefreshToken (userId : String) (now : Nat) : Token :=
  .signed ⟨some userId, now + refreshTokenExpireMinutes * 60, some "refresh"⟩

/-- `jwt.decode(token, settings.secret_key, algorithms=[settings.algorithm])`:
fails (raises `JWTError`) on a bad signature or on an expired token
(`exp < now` per the `exp` claim check of the codec), otherwise returns the
payload. -/
def jwtDecode (t : Token) (now : Nat) : Option Payload :=
  match t with
  | .signed p => if p.exp < now then none else some p
  | .malformed _ => none

/-- The parsed request body of `/auth/refresh` and `/auth/signout`
(src/src/auth/schemas.py): the `RefreshToken` pydantic model wrapping the
token string.  The routes pass this whole object — never the
`refresh_token` field it wraps — into `verify_refresh_token` and
`blacklist_token` (src/src/auth/router.py lines 148 and 217). -/
structure RefreshTokenBody where
  refresh_token : Token
deriving DecidableEq, Repr

/-! ## The fast cache (src/src/helpers/redis.py)

Redis is a keyed store with per-key expiry.  The key texts that occur are
`bl:<token string>` (as `is_token_blacklisted`/`blacklist_token` would
format a token string), `bl:refresh_token='<token string>'` (as
`f"bl:{token}"` formats the `RefreshToken` model the routes actually pass
— a distinct key text), `user:<id>:favorites`, `character:<id>`; the
invalidation helper additionally scans `characters:list:*`.  The glob
`character:*` does not match `characters:list:…` keys (the literal prefix
`character:` differs at the 10th character), so the key space is
faithfully represented by a sum type. -/

inductive Json where
  | null
  | str (s : String)
  | boolean (b : Bool)
  | arr (items : List Json)
  | obj (fields : List (String × Json))

inductive RKey where
  | bl (t : Token)
  | blModel (b : RefreshTokenBody)
  | userFav (userId : String)
  | char (characterId : String)
  | charList (rest : String)
deriving DecidableEq, Repr

/-- A stored Redis value: either a plain string (the blacklist marker
`"true"`) or the result of `json.dumps` on a serialized structure.  Since
`json.loads (json.dumps x) = x` for the values the code writes, the dump is
kept in structured form. -/
inductive RVal where
  | s (v : String)
  | j (v : Json)

/-- Python truthiness of the raw string Redis returns: only the empty
string is falsy; a `json.dumps` output is never empty. -/
def RVal.truthy : RVal → Bool
  | .s v => decide (v ≠ "")
  | .j _ => true

structure CacheEntry where
  key : RKey
  value : RVal
  expireAt : Nat

abbrev Cache := List CacheEntry

def cacheLookup : Cache → RKey → Option (RVal × Nat)
  | [], _ => none
  | e :: rest, k => if e.key = k then some (e.value, e.expireAt) else cacheLookup rest k

/-- `redis.get`: an entry is visible while `now < expireAt` (a key set with
`ex=ttl` at time `t` disappears at `t + ttl`). -/
def cacheGet (c : Cache) (k : RKey) (now : Nat) : Option RVal :=
  match cacheLookup c k with
  | some (v, expireAt) => if now < expireAt then some v else none
  | none => none

/-- `redis.set(key, value, ex=ttl)` / `redis.setex`: unconditional overwrite
with expiry `now + ttl`. -/
def cacheSet (c : Cache) (k : RKey) (v : RVal) (ttlSeconds now : Nat) : Cache :=
  ⟨k, v, now + ttlSeconds⟩ :: c.filter (fun e => decide (e.key ≠ k))

/-- `redis.delete(key)`: idempotent removal. -/
def cacheDel (c : Cache) (k : RKey) : Cache :=
  c.filter (fun e => decide (e.key ≠ k))

/-! ## Revocation (src/src/auth/dependencies.py, src/src/auth/models.py)

`BlacklistedToken` rows have a unique, indexed `token` column
(src/src/auth/models.py line 26); the durable blacklist is the list of
stored tokens.  -/

/-- HTTP error as the caller observes it: status code and detail string. -/
structure HttpError where
  status : Nat
  detail : String
deriving DecidableEq, Repr

def invalidRefreshTokenError : HttpError := ⟨401, "Invalid refresh token"⟩

def couldNotValidateError : HttpError := ⟨401, "Could not validate credentials"⟩

def invalidCredentialsError : HttpError := ⟨401, "Invalid username or password"⟩

/-- An exception as the HTTP client ultimately observes it.  Only the
`http` variant is a deliberate `HTTPException`; every other variant is an
uncaught Python exception that FastAPI turns into a 500 response. -/
inductive PyErr where
  | http (e : HttpError)
  | dbBinding        -- asyncpg DataError: a non-string (the pydantic model)
                     -- bound to the VARCHAR token column; not an IntegrityError
  | dbIntegrity      -- sqlalchemy IntegrityError reaching the caller uncaught
  | attributeError   -- AttributeError from jwt.decode applied to a non-string
  | cacheUnreachable -- Redis failure reaching the caller uncaught
deriving DecidableEq, Repr

/-- The Python value flowing into the `token: str` parameters of
`blacklist_token` and `is_token_blacklisted`: either an actual token
string, or the `RefreshToken` request model that the `/auth/refresh` and
`/auth/signout` routes actually pass (src/src/auth/router.py lines 148
and 217). -/
inductive SqlParam where
  | str (t : Token)
  | pyObject (b : RefreshTokenBody)
deriving DecidableEq, Repr

/-- Binding the value as the VARCHAR `token` parameter of an INSERT or a
SELECT: a string binds; the pydantic object makes asyncpg raise a
DataError — which is not an `IntegrityError` — before the statement
touches any row. -/
def bindTokenParam : SqlParam → Except PyErr Token
  | .str t => .ok t
  | .pyObject _ => .error .dbBinding

/-- The Redis key text `f"bl:{token}"` produces: formatting a token string
gives `bl:<token>`, formatting the pydantic model gives the distinct text
`bl:refresh_token='<token>'`. -/
def blCacheKey : SqlParam → RKey
  | .str t => .bl t
  | .pyObject b => .blModel b

/-- `is_token_blacklisted` (src/src/auth/dependencies.py lines 95-120)
applied to whatever its caller passes: the Redis GET of `f"bl:{token}"`
always works (f-string formatting), `if exists:` is Python truthiness of
the returned string; on a miss the durable SELECT binds the value as the
VARCHAR parameter — raising on a non-string — and presence means
revoked. -/
def isTokenBlacklistedCall (cache : Cache) (db : List Token) (arg : SqlParam)
    (now : Nat) : Except PyErr Bool :=
  match cacheGet cache (blCacheKey arg) now with
  | some v =>
    if v.truthy then .ok true
    else
      match bindTokenParam arg with
      | .error e => .error e
      | .ok t => .ok (decide (t ∈ db))
  | none =>
    match bindTokenParam arg with
    | .error e => .error e
    | .ok t => .ok (decide (t ∈ db))

/-- `verify_refresh_token` (src/src/auth/dependencies.py lines 16-50)
applied to whatever its caller passes: blacklist check first (a database
error there escalates — only `JWTError` is ever caught); then
`jwt.decode`, where a wrong `type` claim or a missing `sub` raises
`JWTError` and every `JWTError` collapses to 401 "Invalid refresh token".
`jwt.decode` applied to the pydantic model raises `AttributeError` (no
`rsplit`), which the `except JWTError` clause does not catch. -/
def verifyRefreshTokenCall (cache : Cache) (db : List Token) (arg : SqlParam)
    (now : Nat) : Except PyErr String :=
  match isTokenBlacklistedCall cache db arg now with
  | .error e => .error e
  | .ok true => .error (.http invalidRefreshTokenError)
  | .ok false =>
    match arg with
    | .pyObject _ => .error .attributeError
    | .str t =>
      match jwtDecode t now with
      | none => .error (.http invalidRefreshTokenError)
      | some p =>
        if p.type ≠ some "refresh" then .error (.http invalidRefreshTokenError)
        else
          match p.sub with
          | none => .error (.http invalidRefreshTokenError)
          | some userId => .ok userId

/-- Response body of `/auth/login` and `/auth/refresh`. -/
structure TokenPair where
  access_token : Token
  refresh_token : Token
  token_type : String
deriving DecidableEq, Repr

/-- `/auth/refresh` (src/src/auth/router.py lines 120-155): line 148
passes the parsed `RefreshToken` request model itself — not
`refresh_token.refresh_token` — into `verify_refresh_token`; on success it
would mint a brand-new access+refresh pair for the subject, performing no
writes.  The route has no exception handling of its own. -/
def refreshRoute (cache : Cache) (db : List Token) (body : RefreshTokenBody)
    (now : Nat) : Except PyErr TokenPair :=
  match verifyRefreshTokenCall cache db (.pyObject body) now with
  | .error e => .error e
  | .ok userId =>
    .ok ⟨createAccessToken userId now, createRefreshToken userId now, "Bearer"⟩

inductive DbError where
  | uniqueViolation
  | foreignKeyViolation
deriving DecidableEq, Repr

/-- Insert a token string into `blacklisted_tokens` and commit: the unique
constraint on the `token` column makes the commit raise `IntegrityError`
on a duplicate, leaving the table unchanged. -/
def dbInsertBlacklistedToken (db : List Token) (t : Token) : Except DbError (List Token) :=
  if t ∈ db then .error .uniqueViolation else .ok (db ++ [t])

/-- Durable blacklist, cache, and the response the HTTP caller sees. -/
structure SignoutOutcome where
  db : List Token
  cache : Cache
  response : Except PyErr String

/-- `blacklist_token` (src/src/auth/dependencies.py lines 85-92) applied
to whatever its caller passes: build the `BlacklistedToken` row (table
models skip pydantic validation, so any value lands in the `token`
attribute), commit — binding the value as the VARCHAR parameter raises a
DataError on a non-string before any row is written, and a duplicate
string raises `IntegrityError` from the unique column — then write the
Redis `bl:` entry with `ex = refresh TTL`.  The function catches nothing,
so every failure escalates to its caller; a failure after the commit
leaves the durable row in place. -/
def blacklistTokenCall (cache : Cache) (db : List Token) (arg : SqlParam)
    (now : Nat) (cacheReachable : Bool) : SignoutOutcome :=
  match bindTokenParam arg with
  | .error e => ⟨db, cache, .error e⟩
  | .ok t =>
    match dbInsertBlacklistedToken db t with
    | .error _ => ⟨db, cache, .error .dbIntegrity⟩
    | .ok db2 =>
      if cacheReachable then
        ⟨db2,
         cacheSet cache (blCacheKey arg) (.s "true")
           (refreshTokenExpireMinutes * 60) now,
         .ok "User signed out successfully"⟩
      else
        ⟨db2, cache, .error .cacheUnreachable⟩

/-- `/auth/signout` (src/src/auth/router.py lines 190-218): line 217
passes the parsed `RefreshToken` request model itself — not the token
string it wraps — into `blacklist_token`.  The route has no exception
handling, so whatever `blacklist_token` raises escalates. -/
def signoutRoute (cache : Cache) (db : List Token) (body : RefreshTokenBody)
    (now : Nat) (cacheReachable : Bool) : SignoutOutcome :=
  blacklistTokenCall cache db (.pyObject body) now cacheReachable

/-! ## Users, login, current user (src/src/auth/dependencies.py) -/

structure UserRow where
  id : String
  username : String
  email : String
  password : String
  is_active : Bool
  is_superuser : Bool
deriving DecidableEq, Repr

/-- `authenticate_user`: first row matching the username, then the opaque
`verify_password` capability; `None` on either failure. -/
def authenticateUser (verify : String → String → Bool) (users : List UserRow)
    (username password : String) : Option UserRow :=
  match users.find? (fun u => u.username == username) with
  | some u => if verify password u.password then some u else none
  | none => none

/-- `login` endpoint (src/src/auth/router.py lines 82-117): any
authentication failure becomes the one 401 response; success mints both
tokens. -/
def login (verify : String → String → Bool) (users : List UserRow)
    (username password : String) (now : Nat) : Except HttpError TokenPair :=
  match authenticateUser verify users username password with
  | none => .error invalidCredentialsError
  | some u => .ok ⟨createAccessToken u.id now, createRefreshToken u.id now, "Bearer"⟩

/-- `get_current_user` (src/src/auth/dependencies.py lines 123-168):
decode; reject when the `type` claim EQUALS `"refresh"` (no other kind is
rejected); reject a missing `sub`; then resolve the subject against the
users table.  All failures are the one 401 credentials exception. -/
def getCurrentUser (users : List UserRow) (t : Token) (now : Nat) :
    Except HttpError UserRow :=
  match jwtDecode t now with
  | none => .error couldNotValidateError
  | some p =>
    if p.type = some "refresh" then .error couldNotValidateError
    else
      match p.sub with
      | none => .error couldNotValidateError
      | some userId =>
        match users.find? (fun u => u.id == userId) with
        | some u => .ok u
        | none => .error couldNotValidateError

/-! ## Favorites cache-aside layer (src/src/helpers/redis.py lines 10-148)

`cache_user_favorites` serializes each `LorCharacter` ORM row (via its
`.dict()`), dumps the list to JSON and stores it under
`user:<id>:favorites`; `get_cached_user_favorites` loads the JSON and
rebuilds objects after `deserialize_lor_character`, which re-parses string
values: first as a UUID, then as an ISO datetime, else keeps the string.

Python values are modelled by `PyVal`; a UUID or datetime value carries its
canonical text (`str(uuid)` / `datetime.isoformat()`). -/

inductive PyVal where
  | pnone
  | pstr (s : String)
  | puuid (canonical : String)
  | pdatetime (isoText : String)
  | pbool (b : Bool)
  | plist (xs : List PyVal)
  | pdict (fields : List (String × PyVal))

def isHexDigitChar (c : Char) : Bool :=
  c.isDigit || ('a' ≤ c && c ≤ 'f') || ('A' ≤ c && c ≤ 'F')

/-- Under-approximation of acceptance by Python `UUID(value)`: only the
canonical 36-character dashed-hex shape that `str(UUID)` produces is
recognized here.  Python also accepts undashed 32-hex, braced and
`urn:uuid:` spellings, and descriptive fields could in principle carry
such strings, so this model keeps as plain strings some values the
program would turn into UUIDs.  The C7 theorem equates the read result
with the image of this file's serialize/deserialize pair and holds
whatever the predicate's extension is, so the narrowing does not make the
round-trip property easier. -/
def pyIsUuidText (s : String) : Bool :=
  s.length == 36 &&
    s.data.enum.all (fun p =>
      if p.1 == 8 || p.1 == 13 || p.1 == 18 || p.1 == 23 then p.2 == '-'
      else isHexDigitChar p.2)

/-- Under-approximation of acceptance by `datetime.fromisoformat`: only
the shapes `datetime.isoformat()` produces — `YYYY-MM-DDTHH:MM:SS` with an
optional `.ffffff` part — are recognized, with digit-range checks
abstracted.  Python's parser also accepts other forms (for example a
date-only `YYYY-MM-DD`), reachable through descriptive fields, which this
model keeps as plain strings.  As with `pyIsUuidText`, the C7 round-trip
theorem is insensitive to the predicate's extension. -/
def pyIsIsoDatetimeText (s : String) : Bool :=
  (s.length == 19 || s.length == 26) &&
    s.data.enum.all (fun p =>
      match p.1 with
      | 4 | 7 => p.2 == '-'
      | 10 => p.2 == 'T'
      | 13 | 16 => p.2 == ':'
      | 19 => p.2 == '.'
      | _ => p.2.isDigit)

mutual
/-- `serialize_lor_character` (src/src/helpers/redis.py lines 10-24):
datetimes to `isoformat()`, UUIDs to `str`, dicts and lists recursively,
everything else unchanged. -/
def serializePy : PyVal → Json
  | .pdatetime s => .str s
  | .puuid s => .str s
  | .pdict fs => .obj (serializePyFields fs)
  | .plist xs => .arr (serializePyList xs)
  | .pstr s => .str s
  | .pnone => .null
  | .pbool b => .boolean b

def serializePyList : List PyVal → List Json
  | [] => []
  | x :: xs => serializePy x :: serializePyList xs

def serializePyFields : List (String × PyVal) → List (String × Json)
  | [] => []
  | (k, v) :: fs => (k, serializePy v) :: serializePyFields fs
end

mutual
/-- The Python value a loaded JSON literal denotes, untouched (the branch
of `deserialize_lor_character` that keeps a list element that is not a
dict). -/
def pyOfJsonRaw : Json → PyVal
  | .null => .pnone
  | .str s => .pstr s
  | .boolean b => .pbool b
  | .arr xs => .plist (pyOfJsonRawList xs)
  | .obj fs => .pdict (pyOfJsonRawFields fs)

def pyOfJsonRawList : List Json → List PyVal
  | [] => []
  | x :: xs => pyOfJsonRaw x :: pyOfJsonRawList xs

def pyOfJsonRawFields : List (String × Json) → List (String × PyVal)
  | [] => []
  | (k, v) :: fs => (k, pyOfJsonRaw v) :: pyOfJsonRawFields fs
end

mutual
/-- `deserialize_lor_character` (src/src/helpers/redis.py lines 27-55)
applied to one loaded dict: each string value is re-parsed — `UUID(value)`
first, then `datetime.fromisoformat(value)`, else kept; nested dicts
recurse; in nested lists only dict elements recurse, other elements are
kept raw. -/
def deserializeDict : List (String × Json) → List (String × PyVal)
  | [] => []
  | (k, v) :: rest => (k, deserializeEntry v) :: deserializeDict rest

def deserializeEntry : Json → PyVal
  | .str s =>
    if pyIsUuidText s then .puuid s
    else if pyIsIsoDatetimeText s then .pdatetime s
    else .pstr s
  | .obj fs => .pdict (deserializeDict fs)
  | .arr xs => .plist (deserializeElems xs)
  | .null => .pnone
  | .boolean b => .pbool b

def deserializeElems : List Json → List PyVal
  | [] => []
  | .obj fs :: rest => .pdict (deserializeDict fs) :: deserializeElems rest
  | x :: rest => pyOfJsonRaw x :: deserializeElems rest
end

/-- A `LorCharacter` ORM row as the cache layer sees it (`BaseModel`
audit columns plus the character fields, src/src/characters/models.py and
src/src/helpers/models.py).  `id` carries the canonical text of the UUID
primary key; the timestamps carry their isoformat text. -/
structure CharRow where
  id : String
  is_deleted : Bool
  created_at : String
  updated_at : String
  external_id : String
  name : String
  wikiUrl : Option String
  race : Option String
  birth : Option String
  gender : Option String
  death : Option String
  hair : Option String
  height : Option String
  realm : Option String
  spouse : Option String
deriving DecidableEq, Repr

def optPy : Option String → PyVal
  | some s => .pstr s
  | none => .pnone

/-- The field dictionary of the ORM object, in declaration order. -/
def charFields (r : CharRow) : List (String × PyVal) :=
  [("id", .puuid r.id), ("is_deleted", .pbool r.is_deleted),
   ("created_at", .pdatetime r.created_at),
   ("updated_at", .pdatetime r.updated_at),
   ("external_id", .pstr r.external_id), ("name", .pstr r.name),
   ("wikiUrl", optPy r.wikiUrl), ("race", optPy r.race),
   ("birth", optPy r.birth), ("gender", optPy r.gender),
   ("death", optPy r.death), ("hair", optPy r.hair),
   ("height", optPy r.height), ("realm", optPy r.realm),
   ("spouse", optPy r.spouse)]

/-- `row.dict()`. -/
def CharRow.toPy (r : CharRow) : PyVal :=
  .pdict (charFields r)

/-- `cache_user_favorites` (src/src/helpers/redis.py lines 79-102):
serialize every favorite, `json.dumps` the list, `setex` under
`user:<id>:favorites`. -/
def cacheUserFavorites (c : Cache) (userId : String) (favorites : List CharRow)
    (expireSeconds now : Nat) : Cache :=
  cacheSet c (.userFav userId)
    (.j (.arr (favorites.map (fun f => serializePy f.toPy)))) expireSeconds now

/-- Rebuild the row list from the loaded JSON:
`[LorCharacter(**deserialize_lor_character(item)) for item in data]`.
A payload that is not a list of dicts would crash the comprehension; it is
unreachable for values written by `cacheUserFavorites` and is modelled as
no result. -/
def loadCachedRows : List Json → Option (List PyVal)
  | [] => some []
  | .obj fs :: rest => (loadCachedRows rest).map (.pdict (deserializeDict fs) :: ·)
  | _ :: _ => none

/-- `get_cached_user_favorites` (src/src/helpers/redis.py lines 105-130):
`redis.get`, Python truthiness test on the returned string, `json.loads`,
then per-item deserialization. -/
def getCachedUserFavorites (c : Cache) (userId : String) (now : Nat) :
    Option (List PyVal) :=
  match cacheGet c (.userFav userId) now with
  | some v =>
    if v.truthy then
      match v with
      | .j (.arr items) => loadCachedRows items
      | _ => none
    else none
  | none => none

/-- `invalidate_user_favorites` (src/src/helpers/redis.py lines 133-148). -/
def invalidateUserFavorites (c : Cache) (userId : String) : Cache :=
  cacheDel c (.userFav userId)

/-- One cached favorite after the full store/load cycle: what the reader
rebuilds from what the writer stored. -/
def favoriteRoundtrip (r : CharRow) : PyVal :=
  deserializeEntry (serializePy r.toPy)

/-! ## Bulk upsert (src/src/characters/service.py lines 81-142)

`bulk_create_or_update_characters` cleans each incoming dict (kept only
when `"_id"` is present; `external_id` plus the allowed descriptive
fields), then runs one
`INSERT ... ON CONFLICT (external_id) DO UPDATE SET <descriptive fields>`
and commits; any error rolls the whole batch back and re-raises.

The conflict target relies on a unique index on `external_id`.  Modelled
from the spec: the migration creating `lor_characters` is not under
`src/migrations` (only a later revision is), and spec §3 states "external
identifier (unique, stable across syncs)", so the table is modelled with
`external_id` unique — at most one row per external id, which the upsert
relation below preserves.

PostgreSQL processes the `VALUES` rows in order: a row conflicting with an
existing row updates it in place; a second row in the same command
affecting an already-inserted or already-updated row raises
`CardinalityViolation` ("command cannot affect row a second time"), which
aborts and rolls back the whole statement.  `touched` tracks the external
ids affected so far in the command. -/

/-- An element of the external API `docs` list.  `idField` is the `"_id"`
key when present; descriptive fields are `none` when absent or null (the
distinction does not reach the upsert: fields are read only through the
allowed-field projection). -/
structure ApiDoc where
  idField : Option String
  name : Option String
  wikiUrl : Option String
  race : Option String
  birth : Option String
  gender : Option String
  death : Option String
  hair : Option String
  height : Option String
  realm : Option String
  spouse : Option String
deriving DecidableEq, Repr

/-- A cleaned `VALUES` row of the upsert statement. -/
structure CharInsert where
  external_id : String
  name : Option String
  wikiUrl : Option String
  race : Option String
  birth : Option String
  gender : Option String
  death : Option String
  hair : Option String
  height : Option String
  realm : Option String
  spouse : Option String
deriving DecidableEq, Repr

/-- The per-doc cleaning loop: keep the doc only if `"_id"` is present. -/
def cleanDoc (d : ApiDoc) : Option CharInsert :=
  d.idField.map (fun i =>
    ⟨i, d.name, d.wikiUrl, d.race, d.birth, d.gender, d.death, d.hair,
     d.height, d.realm, d.spouse⟩)

def cleanDocs (docs : List ApiDoc) : List CharInsert :=
  docs.filterMap cleanDoc

/-- A `lor_characters` row.  `id` is the internal identifier (the UUID7
primary key, modelled by a counter drawn from `nextId`); the defaulted
audit columns are omitted — the upsert statement neither sets nor updates
them in a way the claims observe. -/
structure ItemRow where
  id : Nat
  external_id : String
  name : Option String
  wikiUrl : Option String
  race : Option String
  birth : Option String
  gender : Option String
  death : Option String
  hair : Option String
  height : Option String
  realm : Option String
  spouse : Option String
deriving DecidableEq, Repr

/-- `ON CONFLICT ... DO UPDATE SET` with the `update_dict` of the source:
every allowed field except `external_id` is overwritten from the excluded
row; `id` and `external_id` are untouched. -/
def applyConflictUpdate (r : ItemRow) (v : CharInsert) : ItemRow :=
  { r with name := v.name, wikiUrl := v.wikiUrl, race := v.race,
           birth := v.birth, gender := v.gender, death := v.death,
           hair := v.hair, height := v.height, realm := v.realm,
           spouse := v.spouse }

/-- A freshly inserted row. -/
def insertRow (nextId : Nat) (v : CharInsert) : ItemRow :=
  ⟨nextId, v.external_id, v.name, v.wikiUrl, v.race, v.birth, v.gender,
   v.death, v.hair, v.height, v.realm, v.spouse⟩

inductive UpsertError where
  | rowAffectedTwice
deriving DecidableEq, Repr

/-- Row-by-row execution of the single upsert statement. -/
def upsertGo : List ItemRow → Nat → List String → List CharInsert →
    Except UpsertError (List ItemRow × Nat)
  | rows, nextId, _, [] => .ok (rows, nextId)
  | rows, nextId, touched, v :: rest =>
    if v.external_id ∈ touched then .error .rowAffectedTwice
    else
      if rows.any (fun r => decide (r.external_id = v.external_id)) then
        upsertGo
          (rows.map (fun r =>
            if r.external_id = v.external_id then applyConflictUpdate r v else r))
          nextId (v.external_id :: touched) rest
      else
        upsertGo (rows ++ [insertRow nextId v]) (nextId + 1)
          (v.external_id :: touched) rest

/-- `bulk_create_or_update_characters`: empty input (or nothing with an
`"_id"`) returns without touching the database; otherwise the one
statement runs and commits, or fails as a whole. -/
def bulkCreateOrUpdateCharacters (rows : List ItemRow) (nextId : Nat)
    (docs : List ApiDoc) : Except UpsertError (List ItemRow × Nat) :=
  if (cleanDocs docs).isEmpty then .ok (rows, nextId)
  else upsertGo rows nextId [] (cleanDocs docs)

/-- The table state after one call: on an error the session is rolled back
(`session.rollback()`) and the exception re-raised, so the table is
unchanged. -/
def runBulkCreateOrUpdate (rows : List ItemRow) (nextId : Nat)
    (docs : List ApiDoc) : List ItemRow × Nat :=
  match bulkCreateOrUpdateCharacters rows nextId docs with
  | .ok s => s
  | .error _ => (rows, nextId)

/-! ## Reconciliation task (src/src/characters/tasks.py lines 22-58) -/

/-- Outcome of `fetcher.fetch_data` as `fetch_and_update` observes it:
a raised exception, a falsy response, or a response whose
`data.get("docs", [])` is the given list. -/
inductive FetchOutcome where
  | apiError
  | noData
  | ok (docs : List ApiDoc)

structure SyncState where
  rows : List ItemRow
  nextId : Nat
  cache : Cache

def isItemDerivedKey : RKey → Bool
  | .char _ => true
  | .charList _ => true
  | _ => false

def isUserFavKey : RKey → Bool
  | .userFav _ => true
  | _ => false

/-- `invalidate_characters_cache` (src/src/helpers/redis.py lines 176-186):
deletes every `character:*` and `characters:list:*` key. -/
def invalidateCharactersCache (c : Cache) : Cache :=
  c.filter (fun e => !isItemDerivedKey e.key)

/-- `invalidate_users_cache` (src/src/helpers/redis.py lines 189-197):
deletes every `user:*:favorites` key.  Defined in the helper module but
never called by `fetch_and_update`. -/
def invalidateUsersCache (c : Cache) : Cache :=
  c.filter (fun e => !isUserFavKey e.key)

/-- `fetch_and_update`: a fetch failure or empty result ends the run with
nothing mutated; otherwise the bulk upsert runs — on failure the error is
logged and re-raised (cache untouched), on success (commit included) only
`invalidate_characters_cache()` is called. -/
def fetchAndUpdate (s : SyncState) (fetch : FetchOutcome) : SyncState :=
  match fetch with
  | .apiError => s
  | .noData => s
  | .ok docs =>
    if docs.isEmpty then s
    else
      match bulkCreateOrUpdateCharacters s.rows s.nextId docs with
      | .error _ => s
      | .ok (rows2, nextId2) => ⟨rows2, nextId2, invalidateCharactersCache s.cache⟩

/-! ## Favorites join (src/src/characters/service.py lines 170-198,
src/src/characters/models.py lines 11-19, src/src/characters/router.py
lines 87-115)

`user_favorite_characters` has `UniqueConstraint("user_id",
"character_id")` and foreign keys to `users.id` and `lor_characters.id`;
both a duplicate pair and a dangling reference surface as
`sqlalchemy.exc.IntegrityError` on commit. -/

structure FavoritesDb where
  users : List String
  characters : List String
  favorites : List (String × String)
deriving DecidableEq, Repr

/-- Insert into the join table and commit; the error says which constraint
fired, but both constructors are the one Python `IntegrityError` class. -/
def insertUserFavoriteCharacter (s : FavoritesDb) (userId characterId : String) :
    Except DbError FavoritesDb :=
  if (userId, characterId) ∈ s.favorites then .error .uniqueViolation
  else if userId ∉ s.users then .error .foreignKeyViolation
  else if characterId ∉ s.characters then .error .foreignKeyViolation
  else .ok { s with favorites := s.favorites ++ [(userId, characterId)] }

def characterAlreadyInFavoritesError : HttpError :=
  ⟨400, "Character already in favorites"⟩

/-- `add_character_to_favorites`: `except IntegrityError` — any integrity
failure of the commit rolls back and becomes the one 400 response. -/
def addCharacterToFavorites (s : FavoritesDb) (userId characterId : String) :
    FavoritesDb × Except HttpError String :=
  match insertUserFavoriteCharacter s userId characterId with
  | .ok s2 => (s2, .ok "Character added to favorites")
  | .error _ => (s, .error characterAlreadyInFavoritesError)

/-- `add_favorite_character` endpoint: the service call, then (only when it
did not raise) the per-user cache invalidation. -/
def addFavoriteCharacterEndpoint (s : FavoritesDb) (cache : Cache)
    (userId characterId : String) : FavoritesDb × Cache × Except HttpError String :=
  match addCharacterToFavorites s userId characterId with
  | (s2, .ok m) => (s2, invalidateUserFavorites cache userId, .ok m)
  | (s2, .error e) => (s2, cache, .error e)

/-! ## Helper lemmas and claims -/

/-- `blacklist_token`, as the signout route invokes it (with the pydantic
model), fails at parameter binding on every call and at every state:
nothing is written to either store and the uncaught DataError escalates. -/
theorem signoutRoute_always_binding_error (cache : Cache) (db : List Token)
    (body : RefreshTokenBody) (now : Nat) (reach : Bool) :
    signoutRoute cache db body now reach = ⟨db, cache, .error .dbBinding⟩ := by
  rfl

/-- C1 (code bug): evaluated at the failing input — any signout followed by
a refresh with the same token — the program diverges from the claim.  The
routes pass the `RefreshToken` model, so `signout` raises an uncaught
DataError at the durable INSERT, writing nothing to the blacklist, and the
subsequent `refresh` raises the same uncaught DataError at the blacklist
SELECT: a 500, not the claimed 401 "Invalid refresh token". -/
theorem claim1_bug_signout_and_refresh_500 :
    (signoutRoute [] [] ⟨.signed ⟨some "1", 60, some "refresh"⟩⟩ 0 true).db = []
    ∧ (signoutRoute [] [] ⟨.signed ⟨some "1", 60, some "refresh"⟩⟩ 0 true).response
        = .error .dbBinding
    ∧ refreshRoute []
        (signoutRoute [] [] ⟨.signed ⟨some "1", 60, some "refresh"⟩⟩ 0 true).db
        ⟨.signed ⟨some "1", 60, some "refresh"⟩⟩ 10
        = .error .dbBinding
    ∧ refreshRoute []
        (signoutRoute [] [] ⟨.signed ⟨some "1", 60, some "refresh"⟩⟩ 0 true).db
        ⟨.signed ⟨some "1", 60, some "refresh"⟩⟩ 10
        ≠ .error (.http invalidRefreshTokenError) := by
  refine ⟨rfl, rfl, rfl, by simp [refreshRoute, verifyRefreshTokenCall,
    isTokenBlacklistedCall, cacheGet, cacheLookup, bindTokenParam]⟩

/-- C2 counterexample: revoking a token that is already recorded in the
durable blacklist is not a successful no-op.  The route hands the
`RefreshToken` model to `blacklist_token`, whose durable insert raises an
uncaught DataError at parameter binding, so the caller gets an error
response, not a success. -/
theorem claim2_cex_signout_errors_not_noop :
    (signoutRoute [] [.signed ⟨some "1", 60, some "refresh"⟩]
        ⟨.signed ⟨some "1", 60, some "refresh"⟩⟩ 0 true).response
      = .error .dbBinding
    ∧ (signoutRoute [] [.signed ⟨some "1", 60, some "refresh"⟩]
        ⟨.signed ⟨some "1", 60, some "refresh"⟩⟩ 0 true).response
      ≠ .ok "User signed out successfully" := by
  exact ⟨rfl, by simp [signoutRoute, blacklistTokenCall, bindTokenParam]⟩

/-- C2 amended: no signout succeeds, the durable blacklist is never
touched, and repeating the call fails identically.  The route passes the
`RefreshToken` request model — not the token string — into
`blacklist_token`, so binding the object to the VARCHAR `token` column
raises an uncaught DataError before anything is written; every signout,
first or repeated, leaves both stores unchanged and escalates the same
error.  Even at the level of `blacklist_token` applied to a token string
(its declared signature), a duplicate revoke would raise an uncaught
`IntegrityError` from the unique `token` column rather than succeed as a
no-op. -/
theorem claim2_amended_signout_never_succeeds (cache : Cache)
    (db : List Token) (body : RefreshTokenBody) (now now2 : Nat)
    (reach reach2 : Bool) :
    signoutRoute cache db body now reach = ⟨db, cache, .error .dbBinding⟩
    ∧ signoutRoute (signoutRoute cache db body now reach).cache
        (signoutRoute cache db body now reach).db body now2 reach2
      = ⟨db, cache, .error .dbBinding⟩
    ∧ ∀ (db2 : List Token) (t : Token),
        blacklistTokenCall cache (t :: db2) (.str t) now reach
          = ⟨t :: db2, cache, .error .dbIntegrity⟩ := by
  refine ⟨rfl, rfl, fun db2 t => ?_⟩
  unfold blacklistTokenCall bindTokenParam dbInsertBlacklistedToken
  simp

/-- C5 (code bug): the claimed failure mode — durable write commits, cache
write fails, operation still succeeds with the failure merely logged — is
doubly contradicted.  At the route, the durable write itself raises an
uncaught DataError (the `RefreshToken` model is bound as the VARCHAR
parameter), so the scenario is unreachable and the signout fails with the
stores untouched.  And `blacklist_token` applied to the token string (its
declared signature) has no exception handling: the cache failure after the
commit escalates to the caller instead of being logged — although the
durable row does persist and alone makes every later string-level
revocation check reject the token. -/
theorem claim5_bug_commit_then_cache_failure :
    signoutRoute [] [] ⟨.signed ⟨some "2", 60, some "refresh"⟩⟩ 0 false
      = ⟨[], [], .error .dbBinding⟩
    ∧ (blacklistTokenCall [] [] (.str (.signed ⟨some "2", 60, some "refresh"⟩))
        0 false).response = .error .cacheUnreachable
    ∧ (blacklistTokenCall [] [] (.str (.signed ⟨some "2", 60, some "refresh"⟩))
        0 false).db = [.signed ⟨some "2", 60, some "refresh"⟩]
    ∧ verifyRefreshTokenCall []
        (blacklistTokenCall [] [] (.str (.signed ⟨some "2", 60, some "refresh"⟩))
          0 false).db
        (.str (.signed ⟨some "2", 60, some "refresh"⟩)) 10
      = .error (.http invalidRefreshTokenError) := by
  exact ⟨rfl, rfl, rfl, rfl⟩

/-- C6 (code bug): `refresh` never succeeds, however valid the token.  For
a well-signed, unexpired, unrevoked refresh token, the route still raises
an uncaught DataError at the blacklist SELECT, because it passes the
`RefreshToken` model; no access+refresh pair is ever minted, so refresh
chains are impossible.  `verify_refresh_token` applied to the token string
(its declared signature) would accept the very same token and yield its
subject — the divergence is the route's argument, not the token. -/
theorem claim6_bug_refresh_route_500 :
    refreshRoute [] [] ⟨.signed ⟨some "1", 60, some "refresh"⟩⟩ 0
      = .error .dbBinding
    ∧ verifyRefreshTokenCall [] []
        (.str (.signed ⟨some "1", 60, some "refresh"⟩)) 0 = .ok "1"
    ∧ refreshRoute [] [] ⟨.signed ⟨some "1", 60, some "refresh"⟩⟩ 0
      ≠ .ok ⟨createAccessToken "1" 0, createRefreshToken "1" 0, "Bearer"⟩ := by
  refine ⟨rfl, rfl, by simp [refreshRoute, verifyRefreshTokenCall,
    isTokenBlacklistedCall, cacheGet, cacheLookup, bindTokenParam]⟩

/-- C8 counterexample: `get_current_user` does not reject every token whose
kind differs from `access` — it only rejects kind `refresh`.  A validly
signed, unexpired token with NO `type` claim and a resolvable subject is
accepted, contradicting the claim that any kind other than `access` fails
with 401. -/
theorem claim8_cex_nonaccess_token_accepted :
    (Payload.mk (some "1") 100 none).type ≠ some "access"
    ∧ getCurrentUser [⟨"1", "alice", "a@b.c", "hash", true, false⟩]
        (.signed ⟨some "1", 100, none⟩) 0
      = .ok ⟨"1", "alice", "a@b.c", "hash", true, false⟩ := by
  exact ⟨by simp, rfl⟩

/-- C8 amended: `currentUser(t)` fails with 401 whenever t's kind IS
`refresh`, t is malformed or expired, t's subject claim is absent, or the
subject does not resolve to an existing user; it accepts a validly signed,
unexpired token of any other kind — `access`, an absent `type` claim, or
any other value — with a resolvable subject. -/
theorem claim8_amended_only_refresh_kind_rejected (users : List UserRow)
    (p : Payload) (uid : String) (u : UserRow) (now : Nat)
    (hexp : ¬ p.exp < now) (hsub : p.sub = some uid)
    (hfind : users.find? (fun x => x.id == uid) = some u) :
    (p.type ≠ some "refresh" → getCurrentUser users (.signed p) now = .ok u)
    ∧ (p.type = some "refresh" →
        getCurrentUser users (.signed p) now = .error couldNotValidateError)
    ∧ (∀ t2 : Token, jwtDecode t2 now = none →
        getCurrentUser users t2 now = .error couldNotValidateError)
    ∧ (∀ (p2 : Payload) (uid2 : String), ¬ p2.exp < now →
        p2.type ≠ some "refresh" → p2.sub = some uid2 →
        users.find? (fun x => x.id == uid2) = none →
        getCurrentUser users (.signed p2) now = .error couldNotValidateError) := by
  refine ⟨fun hk => ?_, fun hk => ?_, fun t2 h2 => ?_, fun p2 uid2 he hk hs hf => ?_⟩
  · unfold getCurrentUser jwtDecode
    simp [hexp, hsub, hfind, hk]
  · unfold getCurrentUser jwtDecode
    simp [hexp, hk]
  · unfold getCurrentUser
    simp [h2]
  · unfold getCurrentUser jwtDecode
    simp [he, hk, hs, hf]

theorem claim8_amended_witness :
    getCurrentUser [⟨"1", "alice", "a@b.c", "hash", true, false⟩]
        (.signed ⟨some "1", 100, some "banana"⟩) 0
      = .ok ⟨"1", "alice", "a@b.c", "hash", true, false⟩ :=
  (claim8_amended_only_refresh_kind_rejected
      [⟨"1", "alice", "a@b.c", "hash", true, false⟩]
      ⟨some "1", 100, some "banana"⟩ "1"
      ⟨"1", "alice", "a@b.c", "hash", true, false⟩ 0
      (by decide) rfl rfl).1 (by simp)

/-- C9: login failure is one indistinguishable outcome.  For any two runs —
one with a username matching no user, one with a username whose user fails
password verification — the endpoint returns the very same value:
401 with detail "Invalid username or password".  No caller-observable
difference permits user enumeration. -/
theorem claim9_login_failure_indistinguishable
    (verify : String → String → Bool) (users : List UserRow)
    (u1 p1 u2 p2 : String) (now1 now2 : Nat)
    (h1 : users.find? (fun x => x.username == u1) = none)
    (h2 : ∀ x, users.find? (fun x2 => x2.username == u2) = some x →
        verify p2 x.password = false) :
    login verify users u1 p1 now1 = login verify users u2 p2 now2
    ∧ login verify users u1 p1 now1 = .error invalidCredentialsError := by
  have e1 : login verify users u1 p1 now1 = .error invalidCredentialsError := by
    unfold login authenticateUser
    simp [h1]
  have e2 : login verify users u2 p2 now2 = .error invalidCredentialsError := by
    unfold login authenticateUser
    cases hf : users.find? (fun x2 => x2.username == u2) with
    | none => simp
    | some x => simp [h2 x hf]
  exact ⟨e1.trans e2.symm, e1⟩

theorem claim9_witness :
    login (fun _ _ => false) [⟨"1", "bob", "b@b.c", "hash", true, false⟩]
        "alice" "pw1" 0
      = login (fun _ _ => false) [⟨"1", "bob", "b@b.c", "hash", true, false⟩]
        "bob" "pw2" 7 :=
  (claim9_login_failure_indistinguishable (fun _ _ => false)
      [⟨"1", "bob", "b@b.c", "hash", true, false⟩] "alice" "pw1" "bob" "pw2" 0 7
      rfl (fun _ _ => rfl)).1

/-- C10: adding a nonexistent character to favorites is indistinguishable
from adding a duplicate.  A missing `character_id` violates the foreign
key, the commit raises `IntegrityError`, and the one handler in
`add_character_to_favorites` converts it — like a duplicate-pair unique
violation — to 400 "Character already in favorites".  The endpoint leaves
both stores unchanged and never produces a 404 for the missing
character. -/
theorem claim10_missing_character_reported_as_duplicate (s : FavoritesDb)
    (cache : Cache) (userId characterId : String)
    (h : characterId ∉ s.characters) :
    addFavoriteCharacterEndpoint s cache userId characterId
      = (s, cache, .error characterAlreadyInFavoritesError) := by
  unfold addFavoriteCharacterEndpoint addCharacterToFavorites
    insertUserFavoriteCharacter
  by_cases hdup : (userId, characterId) ∈ s.favorites
  · simp [hdup]
  · by_cases hu : userId ∈ s.users <;> simp [hdup, hu, h]

theorem claim10_witness :
    addFavoriteCharacterEndpoint ⟨["u1"], ["c1"], []⟩ [] "u1" "c9"
      = (⟨["u1"], ["c1"], []⟩, [], .error characterAlreadyInFavoritesError) :=
  claim10_missing_character_reported_as_duplicate ⟨["u1"], ["c1"], []⟩ []
    "u1" "c9" (by simp)

/-- A `user:<id>:favorites` key is not matched by the `character:*` or
`characters:list:*` deletion patterns. -/
theorem isItemDerivedKey_eq_false_of_userFav (k : RKey)
    (h : isUserFavKey k = true) : isItemDerivedKey k = false := by
  cases k <;> simp_all [isUserFavKey, isItemDerivedKey]

/-- C3 counterexample: a reconciliation run that fetches one record and
commits its upsert successfully (one Item row appears) leaves a pre-sync
`user:7:favorites` cache entry fully intact — `fetch_and_update` only calls
`invalidate_characters_cache`, never `invalidate_users_cache`. -/
theorem claim3_cex_favorites_cache_survives_sync :
    (fetchAndUpdate ⟨[], 0, [⟨.userFav "7", .j (.arr []), 9999⟩]⟩
        (.ok [⟨some "e1", some "Frodo", none, none, none, none, none, none,
              none, none, none⟩])).rows
      = [⟨0, "e1", some "Frodo", none, none, none, none, none, none, none,
          none, none⟩]
    ∧ (fetchAndUpdate ⟨[], 0, [⟨.userFav "7", .j (.arr []), 9999⟩]⟩
        (.ok [⟨some "e1", some "Frodo", none, none, none, none, none, none,
              none, none, none⟩])).cache
      = [⟨.userFav "7", .j (.arr []), 9999⟩] := by
  constructor <;> rfl

/-- C3 amended: when a reconciliation run fetches data and its bulk upsert
commits, it invalidates all Item-derived cache entries (`character:*` and
`characters:list:*`) — but NOT the Favorites-derived entries: every
`user:<id>:favorites` entry survives untouched until its own TTL, because
`fetch_and_update` never calls `invalidate_users_cache`. -/
theorem claim3_amended_sync_invalidates_only_item_cache (s : SyncState)
    (docs : List ApiDoc) (rows2 : List ItemRow) (nextId2 : Nat)
    (hne : docs.isEmpty = false)
    (hok : bulkCreateOrUpdateCharacters s.rows s.nextId docs
        = .ok (rows2, nextId2)) :
    fetchAndUpdate s (.ok docs) = ⟨rows2, nextId2, invalidateCharactersCache s.cache⟩
    ∧ (∀ e ∈ (fetchAndUpdate s (.ok docs)).cache, isItemDerivedKey e.key = false)
    ∧ (∀ e ∈ s.cache, isUserFavKey e.key = true →
        e ∈ (fetchAndUpdate s (.ok docs)).cache) := by
  have hrun : fetchAndUpdate s (.ok docs)
      = ⟨rows2, nextId2, invalidateCharactersCache s.cache⟩ := by
    unfold fetchAndUpdate
    simp [hne, hok]
  refine ⟨hrun, fun e he => ?_, fun e he hk => ?_⟩
  · rw [hrun] at he
    simpa [invalidateCharactersCache] using (List.mem_filter.mp he).2
  · rw [hrun]
    exact List.mem_filter.mpr
      ⟨he, by simp [isItemDerivedKey_eq_false_of_userFav e.key hk]⟩

theorem claim3_amended_witness :
    (⟨.userFav "7", .j (.arr []), 9999⟩ : CacheEntry)
      ∈ (fetchAndUpdate ⟨[], 0, [⟨.userFav "7", .j (.arr []), 9999⟩]⟩
          (.ok [⟨some "e1", some "Frodo", none, none, none, none, none, none,
                none, none, none⟩])).cache :=
  (claim3_amended_sync_invalidates_only_item_cache
      ⟨[], 0, [⟨.userFav "7", .j (.arr []), 9999⟩]⟩
      [⟨some "e1", some "Frodo", none, none, none, none, none, none, none,
        none, none⟩]
      [⟨0, "e1", some "Frodo", none, none, none, none, none, none, none,
        none, none⟩] 1 rfl rfl).2.2
    ⟨.userFav "7", .j (.arr []), 9999⟩ (by simp) rfl

/-- A key deleted from the cache is gone, wherever it sat. -/
theorem cacheLookup_filter_ne (c : Cache) (k : RKey) :
    cacheLookup (c.filter (fun e => decide (e.key ≠ k))) k = none := by
  induction c with
  | nil => rfl
  | cons e rest ih =>
    by_cases h : e.key = k
    · simpa [List.filter_cons, h] using ih
    · simpa [List.filter_cons, h, cacheLookup] using ih

/-- `redis.get` after `redis.delete` of the same key misses. -/
theorem cacheGet_del (c : Cache) (k : RKey) (now : Nat) :
    cacheGet (cacheDel c k) k now = none := by
  unfold cacheDel cacheGet
  rw [cacheLookup_filter_ne]

/-- A freshly `setex`-ed key is visible before its expiry. -/
theorem cacheGet_set_fresh (c : Cache) (k : RKey) (v : RVal) (ttl now rt : Nat)
    (h : rt < now + ttl) :
    cacheGet (cacheSet c k v ttl now) k rt = some v := by
  simp [cacheGet, cacheSet, cacheLookup, h]

theorem serializePy_toPy (f : CharRow) :
    serializePy f.toPy = .obj (serializePyFields (charFields f)) := by
  simp [CharRow.toPy, serializePy]

theorem deserializeEntry_obj (fs : List (String × Json)) :
    deserializeEntry (.obj fs) = .pdict (deserializeDict fs) := by
  simp [deserializeEntry]

theorem favoriteRoundtrip_eq (f : CharRow) :
    favoriteRoundtrip f
      = .pdict (deserializeDict (serializePyFields (charFields f))) := by
  rw [favoriteRoundtrip, serializePy_toPy, deserializeEntry_obj]

/-- Loading what `cache_user_favorites` stored rebuilds exactly the
serialize-then-deserialize image of each row. -/
theorem loadCachedRows_serialized (favorites : List CharRow) :
    loadCachedRows (favorites.map (fun f => serializePy f.toPy))
      = some (favorites.map favoriteRoundtrip) := by
  induction favorites with
  | nil => rfl
  | cons f rest ih =>
    simp only [List.map_cons]
    rw [serializePy_toPy f]
    simp [loadCachedRows, ih, favoriteRoundtrip_eq]

/-- C7: the favorites cache-aside round trip.  `populate(u, xs)` followed by
`read(u)` — before the entry's expiry and with no intervening invalidation
— returns exactly the items `xs` as they come out of serialization and
deserialization; and `invalidate(u)` followed by `read(u)` is a miss
(`None`), from any starting cache. -/
theorem claim7_favorites_cache_roundtrip (c : Cache) (userId : String)
    (favorites : List CharRow) (expireSeconds now readTime : Nat)
    (hfresh : readTime < now + expireSeconds) :
    getCachedUserFavorites
        (cacheUserFavorites c userId favorites expireSeconds now) userId readTime
      = some (favorites.map favoriteRoundtrip)
    ∧ ∀ (c2 : Cache) (u2 : String) (t2 : Nat),
        getCachedUserFavorites (invalidateUserFavorites c2 u2) u2 t2 = none := by
  constructor
  · unfold getCachedUserFavorites cacheUserFavorites
    rw [cacheGet_set_fresh _ _ _ _ _ _ hfresh]
    simp [RVal.truthy, loadCachedRows_serialized]
  · intro c2 u2 t2
    unfold getCachedUserFavorites invalidateUserFavorites
    rw [cacheGet_del]

theorem claim7_witness :
    getCachedUserFavorites
        (cacheUserFavorites [] "9"
          [⟨"id9", false, "t0", "t1", "e9", "Frodo", none, none, none, none,
            none, none, none, none, none⟩] 3600 0) "9" 10
      = some ([⟨"id9", false, "t0", "t1", "e9", "Frodo", none, none, none,
            none, none, none, none, none, none⟩].map favoriteRoundtrip) :=
  (claim7_favorites_cache_roundtrip [] "9"
    [⟨"id9", false, "t0", "t1", "e9", "Frodo", none, none, none, none, none,
      none, none, none, none⟩] 3600 0 10 (by decide)).1

/-! ### Upsert lemmas (claim C4) -/

theorem applyConflictUpdate_external_id (r : ItemRow) (v : CharInsert) :
    (applyConflictUpdate r v).external_id = r.external_id := rfl

theorem applyConflictUpdate_id (r : ItemRow) (v : CharInsert) :
    (applyConflictUpdate r v).id = r.id := rfl

/-- Overwriting the descriptive fields with the same excluded row twice is
the same as doing it once. -/
theorem applyConflictUpdate_applyConflictUpdate (r : ItemRow) (v : CharInsert) :
    applyConflictUpdate (applyConflictUpdate r v) v = applyConflictUpdate r v := rfl

/-- A row freshly inserted from `v` already carries the descriptive fields
of `v`, so a conflicting update with `v` fixes it. -/
theorem applyConflictUpdate_insertRow (n : Nat) (v : CharInsert) :
    applyConflictUpdate (insertRow n v) v = insertRow n v := rfl

theorem insertRow_external_id (n : Nat) (v : CharInsert) :
    (insertRow n v).external_id = v.external_id := rfl

/-- The conflict-update pass rewrites descriptive fields only: the column
of external ids is untouched. -/
theorem updateMap_extIds (rows : List ItemRow) (v : CharInsert) :
    ((rows.map (fun r => if r.external_id = v.external_id
        then applyConflictUpdate r v else r)).map (·.external_id))
      = rows.map (·.external_id) := by
  induction rows with
  | nil => rfl
  | cons r rest ih =>
    by_cases h : r.external_id = v.external_id
    · simp only [List.map_cons, if_pos h, applyConflictUpdate_external_id, ih]
    · simp only [List.map_cons, if_neg h, ih]

/-- A successful upsert command preserves the at-most-one-row-per-external-id
invariant of the unique index. -/
theorem upsertGo_ok_nodup :
    ∀ (docs : List CharInsert) (rows : List ItemRow) (n : Nat)
      (touched : List String) (rows2 : List ItemRow) (n2 : Nat),
      (rows.map (·.external_id)).Nodup →
      upsertGo rows n touched docs = .ok (rows2, n2) →
      (rows2.map (·.external_id)).Nodup := by
  intro docs
  induction docs with
  | nil =>
    intro rows n touched rows2 n2 hnd h
    simp only [upsertGo, Except.ok.injEq, Prod.mk.injEq] at h
    obtain ⟨rfl, rfl⟩ := h
    exact hnd
  | cons v rest ih =>
    intro rows n touched rows2 n2 hnd h
    simp only [upsertGo] at h
    by_cases htv : v.external_id ∈ touched
    · rw [if_pos htv] at h
      exact absurd h (by simp)
    · rw [if_neg htv] at h
      by_cases hany : rows.any (fun r => decide (r.external_id = v.external_id)) = true
      · rw [if_pos hany] at h
        exact ih _ _ _ _ _ (by rw [updateMap_extIds]; exact hnd) h
      · rw [if_neg hany] at h
        refine ih _ _ _ _ _ ?_ h
        have hnot : v.external_id ∉ rows.map (·.external_id) := by
          intro hmem
          rcases List.mem_map.mp hmem with ⟨r, hr, he⟩
          exact hany (List.any_eq_true.mpr ⟨r, hr, by simp [he]⟩)
        simp [List.nodup_append, insertRow_external_id, hnd, hnot,
          List.disjoint_singleton]

/-- A row whose external id was already affected earlier in the command is
never touched again by a successful remainder, so it survives as is. -/
theorem upsertGo_ok_preserves_touched :
    ∀ (docs : List CharInsert) (rows : List ItemRow) (n : Nat)
      (touched : List String) (rows2 : List ItemRow) (n2 : Nat),
      upsertGo rows n touched docs = .ok (rows2, n2) →
      ∀ r ∈ rows, r.external_id ∈ touched → r ∈ rows2 := by
  intro docs
  induction docs with
  | nil =>
    intro rows n touched rows2 n2 h r hr _
    simp only [upsertGo, Except.ok.injEq, Prod.mk.injEq] at h
    obtain ⟨rfl, rfl⟩ := h
    exact hr
  | cons v rest ih =>
    intro rows n touched rows2 n2 h r hr hrt
    simp only [upsertGo] at h
    by_cases htv : v.external_id ∈ touched
    · rw [if_pos htv] at h
      exact absurd h (by simp)
    · rw [if_neg htv] at h
      have hne : r.external_id ≠ v.external_id := fun he => htv (he ▸ hrt)
      by_cases hany : rows.any (fun r => decide (r.external_id = v.external_id)) = true
      · rw [if_pos hany] at h
        exact ih _ _ _ _ _ h r (List.mem_map.mpr ⟨r, hr, by simp [hne]⟩)
          (List.mem_cons_of_mem _ hrt)
      · rw [if_neg hany] at h
        exact ih _ _ _ _ _ h r (List.mem_append_left _ hr)
          (List.mem_cons_of_mem _ hrt)

/-- Every pre-existing row keeps its internal id and external id through a
successful command: conflicts overwrite descriptive fields only. -/
theorem upsertGo_ok_preserves_rows :
    ∀ (docs : List CharInsert) (rows : List ItemRow) (n : Nat)
      (touched : List String) (rows2 : List ItemRow) (n2 : Nat),
      upsertGo rows n touched docs = .ok (rows2, n2) →
      ∀ r ∈ rows, ∃ r2 ∈ rows2, r2.id = r.id ∧ r2.external_id = r.external_id := by
  intro docs
  induction docs with
  | nil =>
    intro rows n touched rows2 n2 h r hr
    simp only [upsertGo, Except.ok.injEq, Prod.mk.injEq] at h
    obtain ⟨rfl, rfl⟩ := h
    exact ⟨r, hr, rfl, rfl⟩
  | cons v rest ih =>
    intro rows n touched rows2 n2 h r hr
    simp only [upsertGo] at h
    by_cases htv : v.external_id ∈ touched
    · rw [if_pos htv] at h
      exact absurd h (by simp)
    · rw [if_neg htv] at h
      by_cases hany : rows.any (fun r => decide (r.external_id = v.external_id)) = true
      · rw [if_pos hany] at h
        by_cases he : r.external_id = v.external_id
        · rcases ih _ _ _ _ _ h (applyConflictUpdate r v)
            (List.mem_map.mpr ⟨r, hr, by simp [he]⟩) with ⟨r2, hr2, hid, hext⟩
          exact ⟨r2, hr2, by rw [hid, applyConflictUpdate_id],
            by rw [hext, applyConflictUpdate_external_id]⟩
        · exact ih _ _ _ _ _ h r (List.mem_map.mpr ⟨r, hr, by simp [he]⟩)
      · rw [if_neg hany] at h
        exact ih _ _ _ _ _ h r (List.mem_append_left _ hr)

/-- Re-running a successful upsert command over its own result is a
fixpoint: every row of the batch now conflicts and the conflicting update
rewrites the very values already present. -/
theorem upsertGo_ok_idem :
    ∀ (docs : List CharInsert) (rows : List ItemRow) (n : Nat)
      (touched : List String) (rows2 : List ItemRow) (n2 m : Nat),
      (rows.map (·.external_id)).Nodup →
      upsertGo rows n touched docs = .ok (rows2, n2) →
      upsertGo rows2 m touched docs = .ok (rows2, m) := by
  intro docs
  induction docs with
  | nil =>
    intro rows n touched rows2 n2 m _ h
    simp only [upsertGo, Except.ok.injEq, Prod.mk.injEq] at h
    obtain ⟨rfl, rfl⟩ := h
    rfl
  | cons v rest ih =>
    intro rows n touched rows2 n2 m hnd h
    simp only [upsertGo] at h
    by_cases htv : v.external_id ∈ touched
    · rw [if_pos htv] at h
      exact absurd h (by simp)
    · rw [if_neg htv] at h
      by_cases hany : rows.any (fun r => decide (r.external_id = v.external_id)) = true
      · rw [if_pos hany] at h
        rcases List.any_eq_true.mp hany with ⟨r0, hr0, hre⟩
        have hre : r0.external_id = v.external_id := of_decide_eq_true hre
        have hr1mem : applyConflictUpdate r0 v ∈ rows.map (fun r =>
            if r.external_id = v.external_id then applyConflictUpdate r v else r) :=
          List.mem_map.mpr ⟨r0, hr0, by simp [hre]⟩
        have hr1ext : (applyConflictUpdate r0 v).external_id = v.external_id := by
          rw [applyConflictUpdate_external_id, hre]
        have hr1rows2 : applyConflictUpdate r0 v ∈ rows2 :=
          upsertGo_ok_preserves_touched _ _ _ _ _ _ h _ hr1mem
            (by rw [hr1ext]; exact List.mem_cons_self _ _)
        have hnd1 : ((rows.map (fun r => if r.external_id = v.external_id
            then applyConflictUpdate r v else r)).map (·.external_id)).Nodup := by
          rw [updateMap_extIds]
          exact hnd
        have hnd2 : (rows2.map (·.external_id)).Nodup :=
          upsertGo_ok_nodup _ _ _ _ _ _ hnd1 h
        have hfix : rows2.map (fun r => if r.external_id = v.external_id
            then applyConflictUpdate r v else r) = rows2 := by
          have hpt : ∀ x ∈ rows2, (if x.external_id = v.external_id
              then applyConflictUpdate x v else x) = x := by
            intro x hx
            by_cases hxe : x.external_id = v.external_id
            · have hx1 : x = applyConflictUpdate r0 v :=
                List.inj_on_of_nodup_map hnd2 hx hr1rows2 (by rw [hxe, hr1ext])
              rw [if_pos hxe, hx1, applyConflictUpdate_applyConflictUpdate]
            · rw [if_neg hxe]
          calc rows2.map (fun r => if r.external_id = v.external_id
                  then applyConflictUpdate r v else r)
              = rows2.map id := List.map_congr_left hpt
            _ = rows2 := List.map_id _
        have hany2 : rows2.any (fun r =>
            decide (r.external_id = v.external_id)) = true :=
          List.any_eq_true.mpr ⟨applyConflictUpdate r0 v, hr1rows2, by simp [hr1ext]⟩
        simp only [upsertGo]
        rw [if_neg htv, if_pos hany2, hfix]
        exact ih _ _ _ _ _ m hnd1 h
      · rw [if_neg hany] at h
        have hnot : v.external_id ∉ rows.map (·.external_id) := by
          intro hmem
          rcases List.mem_map.mp hmem with ⟨r, hr, he⟩
          exact hany (List.any_eq_true.mpr ⟨r, hr, by simp [he]⟩)
        have hnd1 : (((rows ++ [insertRow n v]).map (·.external_id))).Nodup := by
          simp [List.nodup_append, insertRow_external_id, hnd, hnot,
            List.disjoint_singleton]
        have hmem2 : insertRow n v ∈ rows2 :=
          upsertGo_ok_preserves_touched _ _ _ _ _ _ h _
            (List.mem_append_right _ (List.mem_singleton.mpr rfl))
            (by rw [insertRow_external_id]; exact List.mem_cons_self _ _)
        have hnd2 : (rows2.map (·.external_id)).Nodup :=
          upsertGo_ok_nodup _ _ _ _ _ _ hnd1 h
        have hfix : rows2.map (fun r => if r.external_id = v.external_id
            then applyConflictUpdate r v else r) = rows2 := by
          have hpt : ∀ x ∈ rows2, (if x.external_id = v.external_id
              then applyConflictUpdate x v else x) = x := by
            intro x hx
            by_cases hxe : x.external_id = v.external_id
            · have hx1 : x = insertRow n v :=
                List.inj_on_of_nodup_map hnd2 hx hmem2
                  (by rw [hxe, insertRow_external_id])
              rw [if_pos hxe, hx1, applyConflictUpdate_insertRow]
            · rw [if_neg hxe]
          calc rows2.map (fun r => if r.external_id = v.external_id
                  then applyConflictUpdate r v else r)
              = rows2.map id := List.map_congr_left hpt
            _ = rows2 := List.map_id _
        have hany2 : rows2.any (fun r =>
            decide (r.external_id = v.external_id)) = true :=
          List.any_eq_true.mpr ⟨insertRow n v, hmem2,
            by simp [insertRow_external_id]⟩
        simp only [upsertGo]
        rw [if_neg htv, if_pos hany2, hfix]
        exact ih _ _ _ _ _ m hnd1 h

/-- C4: the reconciliation bulk upsert is idempotent keyed by external
identifier.  Starting from a table where each external id has at most one
row (the unique-index invariant): (1) applying the upsert twice with the
same batch leaves exactly the table (and id supply) of applying it once —
whether the statement commits or rolls back as a whole; (2) the result
again has at most one row per external id (no duplicates are created);
(3) every pre-existing row keeps its internal and external identifiers,
conflicts overwriting only the mutable descriptive fields in place. -/
theorem claim4_bulk_upsert_idempotent (rows : List ItemRow) (nextId : Nat)
    (docs : List ApiDoc) (hnd : (rows.map (·.external_id)).Nodup) :
    runBulkCreateOrUpdate (runBulkCreateOrUpdate rows nextId docs).1
        (runBulkCreateOrUpdate rows nextId docs).2 docs
      = runBulkCreateOrUpdate rows nextId docs
    ∧ ((runBulkCreateOrUpdate rows nextId docs).1.map (·.external_id)).Nodup
    ∧ ∀ r ∈ rows, ∃ r2 ∈ (runBulkCreateOrUpdate rows nextId docs).1,
        r2.id = r.id ∧ r2.external_id = r.external_id := by
  unfold runBulkCreateOrUpdate bulkCreateOrUpdateCharacters
  by_cases hemp : (cleanDocs docs).isEmpty = true
  · refine ⟨?_, ?_, ?_⟩
    · simp [hemp]
    · simpa [hemp] using hnd
    · simp only [hemp, if_true]
      exact fun r hr => ⟨r, hr, rfl, rfl⟩
  · simp only [hemp, if_false, Bool.false_eq_true]
    cases hgo : upsertGo rows nextId [] (cleanDocs docs) with
    | ok s =>
      obtain ⟨rows2, n2⟩ := s
      refine ⟨?_, ?_, ?_⟩
      · simp only []
        rw [upsertGo_ok_idem _ _ _ _ _ _ n2 hnd hgo]
      · exact upsertGo_ok_nodup _ _ _ _ _ _ hnd hgo
      · exact upsertGo_ok_preserves_rows _ _ _ _ _ _ hgo
    | error e =>
      refine ⟨?_, hnd, fun r hr => ⟨r, hr, rfl, rfl⟩⟩
      simp only []
      rw [hgo]

theorem claim4_witness :
    runBulkCreateOrUpdate
        (runBulkCreateOrUpdate [] 0
          [⟨some "e1", some "Frodo", none, none, none, none, none, none,
            none, none, none⟩]).1
        (runBulkCreateOrUpdate [] 0
          [⟨some "e1", some "Frodo", none, none, none, none, none, none,
            none, none, none⟩]).2
        [⟨some "e1", some "Frodo", none, none, none, none, none, none,
          none, none, none⟩]
      = runBulkCreateOrUpdate [] 0
          [⟨some "e1", some "Frodo", none, none, none, none, none, none,
            none, none, none⟩] :=
  (claim4_bulk_upsert_idempotent [] 0
    [⟨some "e1", some "Frodo", none, none, none, none, none, none, none,
      none, none⟩] (by simp)).1

end Lor
